import Mathlib

/-!
Verification of a static C source-pattern vulnerability detector against its
natural-language specification.  The repository itself ships only two C
fixture files (`safe_sample.c`, `vulnerable_sample.c`); the detector engine
(lexer, call-site extractor, rule engine, aggregator, formatter) is described
by the specification but absent from the sources, so the engine below is
modelled from the spec.  The two fixture files are embedded verbatim as
character data and scanned by the modelled engine.
-/

namespace StaticAnalyzer

/-- The double-quote character. -/
def dq : Char := Char.ofNat 34

/-- The single-quote character. -/
def sq : Char := Char.ofNat 39

/-- The backslash character. -/
def bsl : Char := Char.ofNat 92

/-- The newline character. -/
def nl : Char := Char.ofNat 10

/-- Token kinds per the spec data model:
identifiers, string literals, punctuation, other. -/
inductive TokenKind where
  | identifier
  | stringLit
  | punctuation
  | other
deriving DecidableEq

/-- A lexer token: kind, text, and source location (1-based line/column). -/
structure Token where
  kind : TokenKind
  text : List Char
  line : Nat
  column : Nat
deriving DecidableEq

/-- Lexer modes used while erasing comments from raw source text. -/
inductive Mode where
  | code
  | lineComment
  | blockComment
  | strLit
  | charLit
deriving DecidableEq

/-- Modelled from the spec: the engine scans C-like source code for dangerous
call patterns, so comment text must not yield call sites.  This pass blanks
`//` and `/* */` comments (preserving newlines and overall length) while
leaving string and character literals intact. -/
def stripComments : Mode → List Char → List Char
  | _, [] => []
  | Mode.code, [c] => [c]
  | Mode.lineComment, [c] => if c = nl then [c] else [' ']
  | Mode.blockComment, [c] => if c = nl then [c] else [' ']
  | Mode.strLit, [c] => [c]
  | Mode.charLit, [c] => [c]
  | Mode.code, c :: c2 :: rest =>
    if c = '/' then
      if c2 = '/' then ' ' :: ' ' :: stripComments Mode.lineComment rest
      else if c2 = '*' then ' ' :: ' ' :: stripComments Mode.blockComment rest
      else c :: stripComments Mode.code (c2 :: rest)
    else if c = dq then c :: stripComments Mode.strLit (c2 :: rest)
    else if c = sq then c :: stripComments Mode.charLit (c2 :: rest)
    else c :: stripComments Mode.code (c2 :: rest)
  | Mode.lineComment, c :: c2 :: rest =>
    if c = nl then c :: stripComments Mode.code (c2 :: rest)
    else ' ' :: stripComments Mode.lineComment (c2 :: rest)
  | Mode.blockComment, c :: c2 :: rest =>
    if c = '*' then
      if c2 = '/' then ' ' :: ' ' :: stripComments Mode.code rest
      else ' ' :: stripComments Mode.blockComment (c2 :: rest)
    else if c = nl then c :: stripComments Mode.blockComment (c2 :: rest)
    else ' ' :: stripComments Mode.blockComment (c2 :: rest)
  | Mode.strLit, c :: c2 :: rest =>
    if c = bsl then c :: c2 :: stripComments Mode.strLit rest
    else if c = dq then c :: stripComments Mode.code (c2 :: rest)
    else c :: stripComments Mode.strLit (c2 :: rest)
  | Mode.charLit, c :: c2 :: rest =>
    if c = bsl then c :: c2 :: stripComments Mode.charLit rest
    else if c = sq then c :: stripComments Mode.code (c2 :: rest)
    else c :: stripComments Mode.charLit (c2 :: rest)

/-- First character of a C identifier. -/
def isIdentStart (c : Char) : Bool := c.isAlpha || c = '_'

/-- Subsequent character of a C identifier. -/
def isIdentChar (c : Char) : Bool := c.isAlphanum || c = '_'

/-- Punctuation characters the lexer classifies as `punctuation`. -/
def punctChars : List Char :=
  ['(', ')', '[', ']', ',', ';', Char.ofNat 123, Char.ofNat 125]

/-- Consume the body of a string literal after the opening quote.
Returns (content with escapes kept, remaining input, characters consumed
including the closing quote). -/
def scanStrLit : List Char → (List Char × List Char × Nat)
  | [] => ([], [], 0)
  | c :: rest =>
    if c = dq then ([], rest, 1)
    else if c = bsl then
      match rest with
      | [] => ([c], [], 1)
      | c2 :: rest2 =>
        let r := scanStrLit rest2
        (c :: c2 :: r.1, r.2.1, r.2.2 + 2)
    else
      let r := scanStrLit rest
      (c :: r.1, r.2.1, r.2.2 + 1)

/-- Consume the body of a character literal after the opening quote.
Returns (content, remaining input, characters consumed including the
closing quote). -/
def scanChrLit : List Char → (List Char × List Char × Nat)
  | [] => ([], [], 0)
  | c :: rest =>
    if c = sq then ([], rest, 1)
    else if c = bsl then
      match rest with
      | [] => ([c], [], 1)
      | c2 :: rest2 =>
        let r := scanChrLit rest2
        (c :: c2 :: r.1, r.2.1, r.2.2 + 2)
    else
      let r := scanChrLit rest
      (c :: r.1, r.2.1, r.2.2 + 1)

/-- Modelled from the spec: the Lexer/Tokenizer turns comment-free source text
into a sequence of tokens (identifiers, string literals, punctuation, other),
never failing on malformed input.  `fuel` bounds the recursion; every step
consumes at least one character, so `fuel = input length` suffices. -/
def lexToks : Nat → Nat → Nat → List Char → List Token
  | 0, _, _, _ => []
  | _ + 1, _, _, [] => []
  | fuel + 1, line, col, c :: rest =>
    if c = nl then lexToks fuel (line + 1) 1 rest
    else if c.isWhitespace then lexToks fuel line (col + 1) rest
    else if isIdentStart c then
      let text := c :: rest.takeWhile isIdentChar
      let rest2 := rest.dropWhile isIdentChar
      ⟨TokenKind.identifier, text, line, col⟩ :: lexToks fuel line (col + text.length) rest2
    else if c = dq then
      let r := scanStrLit rest
      ⟨TokenKind.stringLit, r.1, line, col⟩ :: lexToks fuel line (col + r.2.2 + 1) r.2.1
    else if c = sq then
      let r := scanChrLit rest
      ⟨TokenKind.other, r.1, line, col⟩ :: lexToks fuel line (col + r.2.2 + 1) r.2.1
    else if punctChars.contains c then
      ⟨TokenKind.punctuation, [c], line, col⟩ :: lexToks fuel line (col + 1) rest
    else
      ⟨TokenKind.other, [c], line, col⟩ :: lexToks fuel line (col + 1) rest

/-- Modelled from the spec: the full Lexer pipeline stage — strip comments,
then tokenize from line 1, column 1. -/
def lex (s : List Char) : List Token :=
  lexToks (s.length + 1) 1 1 (stripComments Mode.code s)

/-- A call site per the spec data model: callee name, argument token spans,
and the source location of the callee identifier. -/
structure CallSite where
  callee : List Char
  args : List (List Token)
  line : Nat
  column : Nat
deriving DecidableEq

/-- Is this token the given single punctuation character? -/
def isPunctTok (t : Token) (c : Char) : Bool :=
  decide (t.kind = TokenKind.punctuation) && decide (t.text = [c])

/-- Modelled from the spec: split the tokens following a call's opening
parenthesis into argument spans, splitting on top-level commas only and
respecting nested parentheses.  Returns `none` when the parentheses are
unbalanced (the extractor then skips the candidate call gracefully). -/
def parseArgs : List Token → Nat → List Token → List (List Token) →
    Option (List (List Token) × List Token)
  | [], _, _, _ => none
  | t :: rest, depth, cur, acc =>
    if isPunctTok t '(' then parseArgs rest (depth + 1) (cur ++ [t]) acc
    else if isPunctTok t ')' then
      if depth = 0 then
        some ((if cur.isEmpty && acc.isEmpty then [] else acc ++ [cur]), rest)
      else parseArgs rest (depth - 1) (cur ++ [t]) acc
    else if isPunctTok t ',' && decide (depth = 0) then
      parseArgs rest 0 [] (acc ++ [cur])
    else parseArgs rest depth (cur ++ [t]) acc

/-- Modelled from the spec: the Call-Site Extractor recognizes the pattern
`Identifier '(' ... ')'` anywhere in the token stream (nested calls are found
too, since scanning resumes right after the callee identifier) and emits one
`CallSite` per match; unbalanced parentheses skip the candidate. -/
def extractCalls : List Token → List CallSite
  | [] => []
  | t :: rest =>
    match rest with
    | [] => []
    | t2 :: _ =>
      if decide (t.kind = TokenKind.identifier) && isPunctTok t2 '(' then
        match parseArgs rest.tail 0 [] [] with
        | some (args, _) => ⟨t.text, args, t.line, t.column⟩ :: extractCalls rest
        | none => extractCalls rest
      else extractCalls rest

/-- Severity ranks for findings, used for the CI gating threshold. -/
inductive Severity where
  | low
  | medium
  | high
deriving DecidableEq

/-- Numeric rank of a severity (`low < medium < high`). -/
def Severity.rank : Severity → Nat
  | Severity.low => 0
  | Severity.medium => 1
  | Severity.high => 2

/-- A rule per the spec data model: rule id, callee name it applies to,
severity, a pure predicate over the call site, and a message. -/
structure Rule where
  id : List Char
  callee : List Char
  severity : Severity
  predicate : CallSite → Bool
  message : List Char

/-- A finding per the spec data model: rule id, severity, the matched call
site's identity (line, column, callee), and the rule message. -/
structure Finding where
  ruleId : List Char
  severity : Severity
  line : Nat
  column : Nat
  callee : List Char
  message : List Char
deriving DecidableEq

/-- Does the character list contain a `%` immediately followed by `s`
(a conversion with no width specifier)? -/
def hasBarePercentS : List Char → Bool
  | [] => false
  | [_] => false
  | c :: c2 :: rest =>
    if c = '%' && c2 = 's' then true else hasBarePercentS (c2 :: rest)

/-- Predicate: some argument is a string-literal format containing a
`%s` conversion without a width specifier. -/
def scanfNoWidth (cs : CallSite) : Bool :=
  cs.args.any fun a =>
    match a with
    | t :: _ => decide (t.kind = TokenKind.stringLit) && hasBarePercentS t.text
    | [] => false

/-- Predicate: the first (format) argument exists and its first token is not
a string-literal token. -/
def nonLiteralFormat (cs : CallSite) : Bool :=
  match cs.args with
  | (t :: _) :: _ => !(decide (t.kind = TokenKind.stringLit))
  | _ => false

/-- Predicate: the call has exactly two arguments (no length argument). -/
def twoArgsNoLength (cs : CallSite) : Bool := decide (cs.args.length = 2)

/-- Modelled from the spec: `gets` has no length argument at all, so every
`gets` call is an unbounded read. -/
def getsRule : Rule :=
  ⟨("unbounded-read").toList, ("gets").toList, Severity.high,
   fun _ => true, ("gets performs an unbounded read").toList⟩

/-- Modelled from the spec: `strcpy(dst, src)` with two arguments and no
length argument is an unbounded copy. -/
def strcpyRule : Rule :=
  ⟨("unbounded-copy").toList, ("strcpy").toList, Severity.high,
   twoArgsNoLength, ("strcpy copies without a bound").toList⟩

/-- Modelled from the spec: `strcat(dst, src)` with two arguments and no
length argument concatenates without bounds checking. -/
def strcatRule : Rule :=
  ⟨("unbounded-concat").toList, ("strcat").toList, Severity.medium,
   twoArgsNoLength, ("strcat concatenates without a bound").toList⟩

/-- Modelled from the spec: `sprintf` writes to its destination without any
size bound (the bounded variant is the distinct callee `snprintf`). -/
def sprintfRule : Rule :=
  ⟨("unchecked-sprintf").toList, ("sprintf").toList, Severity.medium,
   fun _ => true, ("sprintf can overflow its destination").toList⟩

/-- Modelled from the spec: `scanf` with a `%s` conversion lacking a width
specifier reads unboundedly. -/
def scanfRule : Rule :=
  ⟨("scanf-missing-width").toList, ("scanf").toList, Severity.medium,
   scanfNoWidth, ("scanf %s without a width specifier").toList⟩

/-- Modelled from the spec: every `system` call is flagged unconditionally
as command injection, at severity high. -/
def systemRule : Rule :=
  ⟨("command-injection").toList, ("system").toList, Severity.high,
   fun _ => true, ("system executes a shell command").toList⟩

/-- Modelled from the spec: `popen` runs a shell command. -/
def popenRule : Rule :=
  ⟨("command-injection").toList, ("popen").toList, Severity.high,
   fun _ => true, ("popen executes a shell command").toList⟩

/-- Modelled from the spec: `execl` replaces the process image. -/
def execlRule : Rule :=
  ⟨("command-injection").toList, ("execl").toList, Severity.medium,
   fun _ => true, ("execl executes an external program").toList⟩

/-- Modelled from the spec: `printf` whose format argument is not a
string-literal token is a format-string injection. -/
def printfRule : Rule :=
  ⟨("format-string-injection").toList, ("printf").toList, Severity.high,
   nonLiteralFormat, ("printf format argument is not a literal").toList⟩

/-- Modelled from the spec: the embedded default rule table mapping callee
names to risk predicates. -/
def defaultRules : List Rule :=
  [getsRule, strcpyRule, strcatRule, sprintfRule, scanfRule,
   systemRule, popenRule, execlRule, printfRule]

/-- The finding produced when a rule matches a call site. -/
def mkFinding (r : Rule) (cs : CallSite) : Finding :=
  ⟨r.id, r.severity, cs.line, cs.column, cs.callee, r.message⟩

/-- Modelled from the spec: the Rule Engine looks up all rules whose callee
name matches the call site and emits one finding per predicate that holds. -/
def evalRules (rules : List Rule) (cs : CallSite) : List Finding :=
  (rules.filter fun r => decide (r.callee = cs.callee) && r.predicate cs).map
    fun r => mkFinding r cs

/-- Run the rule engine over every call site extracted from a token stream. -/
def scanTokens (rules : List Rule) (toks : List Token) : List Finding :=
  ((extractCalls toks).map (evalRules rules)).flatten

/-- Drop findings already seen, keeping first occurrences (the spec's
deduplication of exact duplicates: same rule id and call-site identity). -/
def dedupAux (seen : List Finding) : List Finding → List Finding
  | [] => []
  | f :: fs => if f ∈ seen then dedupAux seen fs else f :: dedupAux (f :: seen) fs

/-- Modelled from the spec: the Aggregator deduplicates exact duplicates. -/
def dedup (fs : List Finding) : List Finding := dedupAux [] fs

/-- Lexicographic comparison of character lists by code point. -/
def lexLe : List Char → List Char → Bool
  | [], _ => true
  | _ :: _, [] => false
  | c :: cs, d :: ds => if c = d then lexLe cs ds else decide (c.toNat < d.toNat)

/-- The spec's stable ordering of findings: by line, then column, then
rule id. -/
def findingLe (f g : Finding) : Bool :=
  if f.line < g.line then true
  else if g.line < f.line then false
  else if f.column < g.column then true
  else if g.column < f.column then false
  else lexLe f.ruleId g.ruleId

/-- Insert a finding into a list sorted by `findingLe`. -/
def insertFinding (f : Finding) : List Finding → List Finding
  | [] => [f]
  | g :: gs => if findingLe f g then f :: g :: gs else g :: insertFinding f gs

/-- Insertion sort by `findingLe`. -/
def sortFindings : List Finding → List Finding
  | [] => []
  | f :: fs => insertFinding f (sortFindings fs)

/-- Modelled from the spec: the Finding Aggregator — deduplicate exact
duplicates, then sort by (line, column, ruleId) for deterministic output. -/
def aggregate (fs : List Finding) : List Finding := sortFindings (dedup fs)

/-- Modelled from the spec: the complete single-file pipeline —
source text → Lexer → Call-Site Extractor → Rule Engine → Aggregator. -/
def scanSource (s : List Char) : List Finding :=
  aggregate (scanTokens defaultRules (lex s))

/-- Human-readable label of a severity. -/
def Severity.label : Severity → List Char
  | Severity.low => ("low").toList
  | Severity.medium => ("medium").toList
  | Severity.high => ("high").toList

/-- Decimal digits of a natural number. -/
def natChars (n : Nat) : List Char := Nat.toDigits 10 n

/-- Modelled from the spec: render one finding as one report line with
location, severity label, rule id and message. -/
def renderFinding (f : Finding) : List Char :=
  natChars f.line ++ ':' :: natChars f.column ++
    (" [").toList ++ f.severity.label ++ ("] ").toList ++
    f.ruleId ++ (": ").toList ++ f.message ++ [nl]

/-- Modelled from the spec: the Report Formatter renders the sorted finding
sequence, one line per finding. -/
def renderReport (fs : List Finding) : List Char :=
  (fs.map renderFinding).flatten

/-- The full text report of a single-source scan. -/
def reportOf (s : List Char) : List Char := renderReport (scanSource s)

/-- The findings whose severity meets or exceeds the threshold. -/
def qualifying (threshold : Severity) (fs : List Finding) : List Finding :=
  fs.filter fun f => decide (threshold.rank ≤ f.severity.rank)

/-- Outcome of scanning one file: findings, or an input error
(file unreadable / internal error). -/
inductive ScanResult where
  | ok (findings : List Finding)
  | inputError
deriving DecidableEq

/-- Modelled from the spec: CLI exit-code policy — `2` on unreadable input or
internal error, `1` when a finding meets or exceeds the threshold, else `0`. -/
def exitCode (threshold : Severity) (r : ScanResult) : Nat :=
  match r with
  | ScanResult.inputError => 2
  | ScanResult.ok fs => if qualifying threshold fs = [] then 0 else 1

/-- A file handed to the scanner: its path and its content, or `none` when
the file is unreadable or missing. -/
structure FileInput where
  path : List Char
  content : Option (List Char)

/-- Modelled from the spec: scan one file, reporting `inputError` when the
file cannot be read. -/
def scanFile (f : FileInput) : ScanResult :=
  match f.content with
  | none => ScanResult.inputError
  | some s => ScanResult.ok (scanSource s)

/-- Modelled from the spec: the multi-file scan collects a per-file result
for every listed file; errors are collected alongside findings rather than
thrown across file boundaries. -/
def scanAll (files : List FileInput) : List (List Char × ScanResult) :=
  files.map fun f => (f.path, scanFile f)

/-- Join source lines with newline characters (no trailing newline). -/
def joinLines : List String → List Char
  | [] => []
  | [l] => l.toList
  | l :: l2 :: rest => l.toList ++ nl :: joinLines (l2 :: rest)

/-- The lines of `src/test_samples/vulnerable_sample.c`, embedded verbatim
(the file has no trailing newline). -/
def vulnerableLines : List String :=
  ["#include <stdio.h>",
   "#include <string.h>",
   "#include <stdlib.h>",
   "",
   "void vulnerable_function() \x7b",
   "    char buffer[10];",
   "    char *user_input;",
   "    char destination[20];",
   "    ",
   "    // Dangerous: gets() can cause buffer overflow",
   "    gets(buffer);",
   "    ",
   "    // Dangerous: strcpy without bounds checking",
   "    strcpy(destination, buffer);",
   "    ",
   "    // Dangerous: strcat without bounds checking  ",
   "    strcat(destination, \"suffix\");",
   "    ",
   "    // Dangerous: sprintf can overflow",
   "    sprintf(buffer, \"User input: %s\", user_input);",
   "    ",
   "    // Dangerous: scanf %s without width specifier",
   "    scanf(\"%s\", buffer);",
   "    ",
   "    // Very dangerous: system() call with user input",
   "    system(buffer);",
   "    ",
   "    // Dangerous: popen with potential user input",
   "    popen(\"ls -la\", \"r\");",
   "    ",
   "    // Dangerous: exec function",
   "    execl(\"/bin/sh\", \"sh\", \"-c\", buffer, NULL);",
   "\x7d",
   "",
   "int main() \x7b",
   "    char cmd[100];",
   "    char format_string[50];",
   "    ",
   "    // Format string vulnerability",
   "    printf(format_string);",
   "    ",
   "    // Another dangerous system call",
   "    system(cmd);",
   "    ",
   "    vulnerable_function();",
   "    return 0;",
   "\x7d"]

/-- The character content of `src/test_samples/vulnerable_sample.c`. -/
def vulnerableSource : List Char := joinLines vulnerableLines

/-- The lines of `src/test_samples/safe_sample.c`, embedded verbatim
(the file ends with a newline and one final blank line). -/
def safeLines : List String :=
  ["#include <stdio.h>",
   "#include <string.h>",
   "#include <stdlib.h>",
   "",
   "#define BUFFER_SIZE 256",
   "",
   "void safe_function()",
   "\x7b",
   "    char buffer[BUFFER_SIZE];",
   "    char destination[BUFFER_SIZE];",
   "",
   "    // Safe: fgets with size limit",
   "    fgets(buffer, sizeof(buffer), stdin);",
   "",
   "    // Safe: strncpy with size limit",
   "    strncpy(destination, buffer, sizeof(destination) - 1);",
   "    destination[sizeof(destination) - 1] = \x27\\0\x27;",
   "",
   "    // Safe: strncat with remaining space calculation",
   "    size_t remaining = sizeof(destination) - strlen(destination) - 1;",
   "    strncat(destination, \"suffix\", remaining);",
   "",
   "    // Safe: snprintf with buffer size",
   "    snprintf(buffer, sizeof(buffer), \"User input: %s\", destination);",
   "",
   "    // Safe: scanf with width specifier",
   "    scanf(\"%255s\", buffer);",
   "",
   "    // Safe: avoid system() calls, use safer alternatives",
   "    // system(buffer); // DON\x27T DO THIS",
   "",
   "    // Better approach would be to validate input and use execve",
   "\x7d",
   "",
   "int main()",
   "\x7b",
   "    char buffer[BUFFER_SIZE];",
   "",
   "    // Safe: literal format string",
   "    printf(\"Enter some text: \");",
   "",
   "    // Safe: proper input handling",
   "    if (fgets(buffer, sizeof(buffer), stdin) != NULL)",
   "    \x7b",
   "        // Remove newline if present",
   "        buffer[strcspn(buffer, \"\\n\")] = \x27\\0\x27;",
   "        printf(\"You entered: %s\\n\", buffer);",
   "    \x7d",
   "",
   "    safe_function();",
   "    return 0;",
   "\x7d",
   "",
   ""]

/-- The character content of `src/test_samples/safe_sample.c`. -/
def safeSource : List Char := joinLines safeLines

/-- Does the finding list contain a finding with the given rule id, callee
and line? -/
def hasFindingAt (fs : List Finding) (rid callee : List Char) (line : Nat) : Bool :=
  fs.any fun f =>
    decide (f.ruleId = rid) && decide (f.callee = callee) && decide (f.line = line)

/-- One expected finding of the vulnerable fixture:
(rule id, callee, line). -/
def expectedVulnerable : List (List Char × List Char × Nat) :=
  [(("unbounded-read").toList, ("gets").toList, 11),
   (("unbounded-copy").toList, ("strcpy").toList, 14),
   (("unbounded-concat").toList, ("strcat").toList, 17),
   (("unchecked-sprintf").toList, ("sprintf").toList, 20),
   (("scanf-missing-width").toList, ("scanf").toList, 23),
   (("command-injection").toList, ("system").toList, 26),
   (("command-injection").toList, ("popen").toList, 29),
   (("command-injection").toList, ("execl").toList, 32),
   (("format-string-injection").toList, ("printf").toList, 40),
   (("command-injection").toList, ("system").toList, 43)]

/-- Every expected finding is present in the list. -/
def coversAll (fs : List Finding) (es : List (List Char × List Char × Nat)) : Bool :=
  es.all fun e => hasFindingAt fs e.1 e.2.1 e.2.2

/-- `BUFFER_SIZE` as defined in `safe_sample.c` line 5. -/
def BUFFER_SIZE : Nat := 256

/-- Modelled C semantics: the characters `fgets` stores (before the
terminating null) when told to read at most `k` characters — it stops after
a newline or at end of input. -/
def fgetsTake : Nat → List Char → List Char
  | 0, _ => []
  | _ + 1, [] => []
  | k + 1, c :: rest => if c = nl then [c] else c :: fgetsTake k rest

/-- Modelled C semantics of `fgets(buf, n, stream)`: reads at most `n - 1`
characters, stopping after a newline, and stores them followed by a
terminating null; returns NULL (`none`) at immediate end of input.  On
success the result is the stored string (without the terminator). -/
def cFgets (n : Nat) (stream : List Char) : Option (List Char) :=
  if n = 0 then none
  else
    match stream with
    | [] => none
    | c :: rest => some (fgetsTake (n - 1) (c :: rest))

/-- Modelled C semantics of `strcspn(s, rej)`: the length of the initial
segment of `s` containing no character of `rej`. -/
def strcspn (s rej : List Char) : Nat :=
  (s.takeWhile fun c => !rej.contains c).length

/-- An identifier token. -/
def identTok (s : String) (line col : Nat) : Token :=
  ⟨TokenKind.identifier, s.toList, line, col⟩

/-- A string-literal token. -/
def strTok (s : String) (line col : Nat) : Token :=
  ⟨TokenKind.stringLit, s.toList, line, col⟩

/-- Example call site: `gets(buffer)` as on vulnerable_sample.c line 11. -/
def egGets : CallSite :=
  ⟨("gets").toList, [[identTok "buffer" 11 10]], 11, 5⟩

/-- Example call site: `strcpy(destination, buffer)` as on
vulnerable_sample.c line 14. -/
def egStrcpy : CallSite :=
  ⟨("strcpy").toList,
   [[identTok "destination" 14 12], [identTok "buffer" 14 25]], 14, 5⟩

/-- Example call site: the three-argument `strncpy` of safe_sample.c
line 16. -/
def egStrncpy : CallSite :=
  ⟨("strncpy").toList,
   [[identTok "destination" 16 13], [identTok "buffer" 16 26],
    [identTok "sizeof" 16 34, ⟨TokenKind.punctuation, [')'], 16, 58⟩]], 16, 5⟩

/-- Example call site: `printf(format_string)` as on vulnerable_sample.c
line 40. -/
def egPrintfIdent : CallSite :=
  ⟨("printf").toList, [[identTok "format_string" 40 12]], 40, 5⟩

/-- Example call site: `printf("Enter some text: ")` as on safe_sample.c
line 40. -/
def egPrintfLit : CallSite :=
  ⟨("printf").toList, [[strTok "Enter some text: " 40 12]], 40, 5⟩

/-- Example call site: `system(cmd)` as on vulnerable_sample.c line 43. -/
def egSystem : CallSite :=
  ⟨("system").toList, [[identTok "cmd" 43 12]], 43, 5⟩

/-! ## Helper lemmas -/

/-- A matching rule's finding is among the engine's findings. -/
theorem mem_evalRules {rules : List Rule} {r : Rule} {cs : CallSite}
    (hr : r ∈ rules) (hc : r.callee = cs.callee) (hp : r.predicate cs = true) :
    mkFinding r cs ∈ evalRules rules cs := by
  unfold evalRules
  exact List.mem_map_of_mem _ (List.mem_filter.mpr ⟨hr, by simp [hc, hp]⟩)

/-- When no rule both matches the callee and satisfies its predicate,
the engine emits nothing. -/
theorem evalRules_eq_nil {rules : List Rule} {cs : CallSite}
    (h : ∀ r ∈ rules, ¬(r.callee = cs.callee ∧ r.predicate cs = true)) :
    evalRules rules cs = [] := by
  unfold evalRules
  rw [List.filter_eq_nil_iff.mpr, List.map_nil]
  intro r hr
  have := h r hr
  simp only [Bool.and_eq_true, decide_eq_true_eq]
  exact fun hc => this ⟨hc.1, hc.2⟩

/-- The prefix measured by `takeWhile` is no longer than the list. -/
theorem length_takeWhile_le' (p : Char → Bool) (l : List Char) :
    (l.takeWhile p).length ≤ l.length := by
  induction l with
  | nil => simp
  | cons c rest ih =>
    by_cases h : p c = true
    · simpa [List.takeWhile_cons, h] using Nat.succ_le_succ ih
    · simp only [List.takeWhile_cons, h]
      exact Nat.le_succ_of_le (Nat.zero_le _)

/-- `strcspn` never exceeds the string length. -/
theorem strcspn_le_length (s rej : List Char) : strcspn s rej ≤ s.length :=
  length_takeWhile_le' _ s

/-- `fgets` limited to `k` characters stores at most `k` characters. -/
theorem fgetsTake_length_le : ∀ (k : Nat) (l : List Char),
    (fgetsTake k l).length ≤ k
  | 0, _ => by simp [fgetsTake]
  | _ + 1, [] => by simp [fgetsTake]
  | k + 1, c :: rest => by
    unfold fgetsTake
    by_cases h : c = nl
    · simp [h]
    · simpa [h] using Nat.succ_le_succ (fgetsTake_length_le k rest)

/-- Every default rule applies to one of the nine dangerous callees. -/
theorem defaultRules_callees {r : Rule} (hr : r ∈ defaultRules) :
    r = getsRule ∨ r = strcpyRule ∨ r = strcatRule ∨ r = sprintfRule ∨
    r = scanfRule ∨ r = systemRule ∨ r = popenRule ∨ r = execlRule ∨
    r = printfRule := by
  simpa [defaultRules] using hr

/-! ## Claim theorems -/

/-- C2: for every call site of the form `gets(buffer)` — callee `gets` with a
single argument and no length argument — the rule engine emits a finding for
the rule "unbounded-read". -/
theorem gets_call_emits_unbounded_read (cs : CallSite)
    (hc : cs.callee = ("gets").toList) (_hargs : cs.args.length = 1) :
    ∃ f ∈ evalRules defaultRules cs, f.ruleId = ("unbounded-read").toList :=
  ⟨mkFinding getsRule cs,
    mem_evalRules (by simp [defaultRules]) (by rw [hc]; rfl) rfl, rfl⟩

/-- Witness for C2 at the concrete call site `gets(buffer)` of
vulnerable_sample.c line 11. -/
theorem gets_call_emits_unbounded_read_witness :
    egGets.callee = ("gets").toList ∧ egGets.args.length = 1 ∧
    ∃ f ∈ evalRules defaultRules egGets, f.ruleId = ("unbounded-read").toList :=
  ⟨rfl, rfl, gets_call_emits_unbounded_read egGets rfl rfl⟩

/-- C3: every two-argument `strcpy` call site is flagged with rule
"unbounded-copy", while a three-argument `strncpy` call site receives no
"unbounded-copy" finding. -/
theorem strcpy_flagged_strncpy_not (cs1 cs2 : CallSite)
    (hc1 : cs1.callee = ("strcpy").toList) (ha1 : cs1.args.length = 2)
    (hc2 : cs2.callee = ("strncpy").toList) (_ha2 : cs2.args.length = 3) :
    (∃ f ∈ evalRules defaultRules cs1, f.ruleId = ("unbounded-copy").toList) ∧
    ∀ f ∈ evalRules defaultRules cs2, f.ruleId ≠ ("unbounded-copy").toList := by
  constructor
  · exact ⟨mkFinding strcpyRule cs1,
      mem_evalRules (by simp [defaultRules]) (by rw [hc1]; rfl)
        (by simp [strcpyRule, twoArgsNoLength, ha1]), rfl⟩
  · have hnil : evalRules defaultRules cs2 = [] := by
      apply evalRules_eq_nil
      intro r hr hcontra
      have hc := hcontra.1
      rw [hc2] at hc
      rcases defaultRules_callees hr with h|h|h|h|h|h|h|h|h <;> subst h <;>
        exact absurd hc (by decide)
    rw [hnil]
    simp

/-- Witness for C3 at `strcpy(destination, buffer)` (vulnerable_sample.c
line 14) and `strncpy(destination, buffer, sizeof(destination) - 1)`
(safe_sample.c line 16). -/
theorem strcpy_flagged_strncpy_not_witness :
    egStrcpy.callee = ("strcpy").toList ∧ egStrcpy.args.length = 2 ∧
    egStrncpy.callee = ("strncpy").toList ∧ egStrncpy.args.length = 3 ∧
    ((∃ f ∈ evalRules defaultRules egStrcpy,
        f.ruleId = ("unbounded-copy").toList) ∧
     ∀ f ∈ evalRules defaultRules egStrncpy,
        f.ruleId ≠ ("unbounded-copy").toList) :=
  ⟨rfl, rfl, rfl, rfl, strcpy_flagged_strncpy_not egStrcpy egStrncpy rfl rfl rfl rfl⟩

/-- C4: a `printf` call site whose format argument starts with an identifier
token is flagged with rule "format-string-injection", while a `printf` call
site whose format argument starts with a string-literal token receives no
such finding. -/
theorem printf_format_string_rule (cs1 cs2 : CallSite) (t1 t2 : Token)
    (r1 r2 : List Token) (a1 a2 : List (List Token))
    (hc1 : cs1.callee = ("printf").toList) (ha1 : cs1.args = (t1 :: r1) :: a1)
    (hk1 : t1.kind = TokenKind.identifier)
    (hc2 : cs2.callee = ("printf").toList) (ha2 : cs2.args = (t2 :: r2) :: a2)
    (hk2 : t2.kind = TokenKind.stringLit) :
    (∃ f ∈ evalRules defaultRules cs1,
        f.ruleId = ("format-string-injection").toList) ∧
    ∀ f ∈ evalRules defaultRules cs2,
        f.ruleId ≠ ("format-string-injection").toList := by
  constructor
  · exact ⟨mkFinding printfRule cs1,
      mem_evalRules (by simp [defaultRules]) (by rw [hc1]; rfl)
        (by simp [printfRule, nonLiteralFormat, ha1, hk1]), rfl⟩
  · have hnil : evalRules defaultRules cs2 = [] := by
      apply evalRules_eq_nil
      intro r hr hcontra
      rcases defaultRules_callees hr with h|h|h|h|h|h|h|h|h <;> subst h
      all_goals first
      | (have hc := hcontra.1; rw [hc2] at hc; exact absurd hc (by decide))
      | (have hp := hcontra.2
         simp [printfRule, nonLiteralFormat, ha2, hk2] at hp)
    rw [hnil]
    simp

/-- Witness for C4 at `printf(format_string)` (vulnerable_sample.c line 40)
and `printf("Enter some text: ")` (safe_sample.c line 40). -/
theorem printf_format_string_rule_witness :
    egPrintfIdent.callee = ("printf").toList ∧
    egPrintfIdent.args = [[identTok "format_string" 40 12]] ∧
    (identTok "format_string" 40 12).kind = TokenKind.identifier ∧
    egPrintfLit.callee = ("printf").toList ∧
    egPrintfLit.args = [[strTok "Enter some text: " 40 12]] ∧
    (strTok "Enter some text: " 40 12).kind = TokenKind.stringLit ∧
    ((∃ f ∈ evalRules defaultRules egPrintfIdent,
        f.ruleId = ("format-string-injection").toList) ∧
     ∀ f ∈ evalRules defaultRules egPrintfLit,
        f.ruleId ≠ ("format-string-injection").toList) :=
  ⟨rfl, rfl, rfl, rfl, rfl, rfl,
    printf_format_string_rule egPrintfIdent egPrintfLit
      (identTok "format_string" 40 12) (strTok "Enter some text: " 40 12)
      [] [] [] [] rfl rfl rfl rfl rfl rfl⟩

/-- C5: every call site `system(x)` with an identifier argument is flagged
unconditionally with rule "command-injection" at severity high. -/
theorem system_call_flagged_high (cs : CallSite) (t : Token)
    (hc : cs.callee = ("system").toList) (_ha : cs.args = [[t]])
    (_hk : t.kind = TokenKind.identifier) :
    ∃ f ∈ evalRules defaultRules cs,
      f.ruleId = ("command-injection").toList ∧ f.severity = Severity.high :=
  ⟨mkFinding systemRule cs,
    mem_evalRules (by simp [defaultRules]) (by rw [hc]; rfl) rfl, rfl, rfl⟩

/-- Witness for C5 at `system(cmd)` of vulnerable_sample.c line 43. -/
theorem system_call_flagged_high_witness :
    egSystem.callee = ("system").toList ∧
    egSystem.args = [[identTok "cmd" 43 12]] ∧
    (identTok "cmd" 43 12).kind = TokenKind.identifier ∧
    ∃ f ∈ evalRules defaultRules egSystem,
      f.ruleId = ("command-injection").toList ∧ f.severity = Severity.high :=
  ⟨rfl, rfl, rfl,
    system_call_flagged_high egSystem (identTok "cmd" 43 12) rfl rfl rfl⟩

/-- C6: scanning is deterministic — identical source input yields
byte-identical report text. -/
theorem scan_deterministic (s t : List Char) (h : s = t) :
    reportOf s = reportOf t := by rw [h]

/-- Witness for C6 on the safe fixture. -/
theorem scan_deterministic_witness :
    safeSource = safeSource ∧ reportOf safeSource = reportOf safeSource :=
  ⟨rfl, scan_deterministic safeSource safeSource rfl⟩

/-- C7: the exit status is 2 on unreadable input or internal error, 0 when no
finding's severity meets the threshold, 1 when at least one does; with the
default threshold (`low`) every finding qualifies. -/
theorem exit_code_policy (t : Severity) (fs : List Finding) :
    exitCode t ScanResult.inputError = 2 ∧
    exitCode t (ScanResult.ok fs) = (if qualifying t fs = [] then 0 else 1) ∧
    qualifying Severity.low fs = fs := by
  refine ⟨rfl, rfl, ?_⟩
  exact List.filter_eq_self.mpr fun f _ => by simp [Severity.rank]

/-- C8: a per-file input error is collected in place, alongside the other
files' results, and the remaining files produce exactly the results they
would produce if the failing file had not been listed. -/
theorem per_file_error_isolation (pre post : List FileInput) (bad : FileInput)
    (h : bad.content = none) :
    scanAll (pre ++ bad :: post) =
      scanAll pre ++ (bad.path, ScanResult.inputError) :: scanAll post ∧
    scanAll (pre ++ post) = scanAll pre ++ scanAll post := by
  constructor
  · simp [scanAll, scanFile, h]
  · simp [scanAll]

/-- Witness for C8: one unreadable file between two readable ones. -/
theorem per_file_error_isolation_witness :
    (FileInput.mk ("bad.c").toList none).content = none ∧
    (scanAll ([⟨("a.c").toList, some safeSource⟩] ++
        FileInput.mk ("bad.c").toList none :: [⟨("b.c").toList, some vulnerableSource⟩]) =
      scanAll [⟨("a.c").toList, some safeSource⟩] ++
        (("bad.c").toList, ScanResult.inputError) ::
          scanAll [⟨("b.c").toList, some vulnerableSource⟩] ∧
     scanAll ([⟨("a.c").toList, some safeSource⟩] ++ [⟨("b.c").toList, some vulnerableSource⟩]) =
      scanAll [⟨("a.c").toList, some safeSource⟩] ++
        scanAll [⟨("b.c").toList, some vulnerableSource⟩]) :=
  ⟨rfl, per_file_error_isolation [⟨("a.c").toList, some safeSource⟩]
    [⟨("b.c").toList, some vulnerableSource⟩] (FileInput.mk ("bad.c").toList none) rfl⟩

/-- C9: re-scanning the same file produces the same finding list, in both
order and content. -/
theorem scan_idempotent (s t : List Char) (h : s = t) :
    scanSource s = scanSource t := by rw [h]

/-- Witness for C9 on the vulnerable fixture. -/
theorem scan_idempotent_witness :
    vulnerableSource = vulnerableSource ∧
    scanSource vulnerableSource = scanSource vulnerableSource :=
  ⟨rfl, scan_idempotent vulnerableSource vulnerableSource rfl⟩

/-- C10: in safe_sample.c's main, whenever
`fgets(buffer, sizeof(buffer), stdin)` succeeds, the stored string is
strictly shorter than `BUFFER_SIZE` (256, leaving room for the terminating
null), and `strcspn(buffer, "\n")` is at most the string length and strictly
below `BUFFER_SIZE`, so the write `buffer[strcspn(buffer, "\n")] = 0` stays
within the bounds of `buffer`. -/
theorem safe_sample_fgets_write_in_bounds (stream s : List Char)
    (h : cFgets BUFFER_SIZE stream = some s) :
    s.length < BUFFER_SIZE ∧ strcspn s [nl] ≤ s.length ∧
    strcspn s [nl] < BUFFER_SIZE := by
  have hs : s.length < BUFFER_SIZE := by
    cases stream with
    | nil => simp [cFgets, BUFFER_SIZE] at h
    | cons c rest =>
      simp only [cFgets, BUFFER_SIZE] at h ⊢
      norm_num at h
      have hlen := fgetsTake_length_le 255 (c :: rest)
      rw [h] at hlen
      omega
  exact ⟨hs, strcspn_le_length s [nl],
    lt_of_le_of_lt (strcspn_le_length s [nl]) hs⟩

/-- Witness for C10: a three-character line read from stdin. -/
theorem safe_sample_fgets_write_in_bounds_witness :
    cFgets BUFFER_SIZE (("hi").toList ++ [nl]) = some (("hi").toList ++ [nl]) ∧
    ((("hi").toList ++ [nl]).length < BUFFER_SIZE ∧
     strcspn (("hi").toList ++ [nl]) [nl] ≤ (("hi").toList ++ [nl]).length ∧
     strcspn (("hi").toList ++ [nl]) [nl] < BUFFER_SIZE) :=
  ⟨by decide, safe_sample_fgets_write_in_bounds (("hi").toList ++ [nl])
    (("hi").toList ++ [nl]) (by decide)⟩

set_option maxHeartbeats 16000000 in
set_option maxRecDepth 100000 in
/-- C1: with the severity threshold at medium, the safe fixture yields zero
qualifying findings and the vulnerable fixture yields at least one finding
for each dangerous call — gets (line 11), strcpy (14), strcat (17),
sprintf (20), scanf without a width specifier (23), system (26 and 43),
popen (29), execl (32) and the non-literal printf (40). -/
theorem fixtures_scan_as_specified :
    qualifying Severity.medium (scanSource safeSource) = [] ∧
    coversAll (qualifying Severity.medium (scanSource vulnerableSource))
      expectedVulnerable = true := by
  decide

end StaticAnalyzer
